import Mathlib

set_option maxHeartbeats 1000000

namespace ProjectOrc

/-! Shallow embedding of the provisioning scripts of this repository:
src/boto3-iac-script.py, src/complete-deployment-script.py and
src/lambda-backup-script.py.  The remote AWS control-plane calls are
opaque collaborators: their responses enter the model as parameters, and
the calls a function issues are recorded in explicit traces. -/

/-- JSON-like values stored in the infrastructure ledger (the contents of
the file infrastructure_details.json): strings, numbers, arrays and
string-keyed objects, exactly the shapes produced by json.dump and
json.load in the scripts. -/
inductive JVal where
  | str : String → JVal
  | num : Int → JVal
  | arr : List JVal → JVal
  | obj : List (String × JVal) → JVal

/-- The ledger: a Python dict from top-level keys (stage or category names)
to records, modelled as an insertion-ordered association list, the shape
json.load yields for a JSON object. -/
abbrev Ledger := List (String × JVal)

/-- Python dict lookup `d[k]` / `d.get(k)` on the association-list model:
the first binding for the key (dict keys are unique, so first = only). -/
def dictGet : Ledger → String → Option JVal
  | [], _ => none
  | p :: d, k => if p.1 = k then some p.2 else dictGet d k

/-- Python dict item assignment `d[k] = v`: replace the binding in place if
the key is present, otherwise append a new binding at the end. -/
def dictSet : Ledger → String → JVal → Ledger
  | [], k, v => [(k, v)]
  | p :: d, k, v => if p.1 = k then (k, v) :: d else p :: dictSet d k v

/-- Python `d.update(m)` as used by update_infrastructure_details
(src/complete-deployment-script.py lines 513-520): item assignment of every
binding of `m` into `d`, in order. -/
def dictUpdate (d : Ledger) (m : Ledger) : Ledger :=
  m.foldl (fun acc p => dictSet acc p.1 p.2) d

/-- The last binding of a key in an association list (later bindings of the
same key override earlier ones, matching dict.update with duplicate keys). -/
def lookupLast : Ledger → String → Option JVal
  | [], _ => none
  | p :: m, k =>
    match lookupLast m k with
    | some v => some v
    | none => if p.1 = k then some p.2 else none

theorem dictUpdate_nil (d : Ledger) : dictUpdate d [] = d := rfl

theorem dictUpdate_cons (d : Ledger) (p : String × JVal) (m : Ledger) :
    dictUpdate d (p :: m) = dictUpdate (dictSet d p.1 p.2) m := rfl

/-- Item assignment changes exactly the assigned key. -/
theorem dictGet_dictSet (d : Ledger) (a k : String) (v : JVal) :
    dictGet (dictSet d a v) k = if a = k then some v else dictGet d k := by
  induction d with
  | nil =>
      by_cases h : a = k <;> simp [dictSet, dictGet, h]
  | cons p rest ih =>
      by_cases hp : p.1 = a
      · by_cases h : a = k <;> simp [dictSet, dictGet, hp, h]
      · by_cases h : a = k
        · subst h
          simp [dictSet, dictGet, hp, ih]
        · by_cases hk : p.1 = k <;>
            simp [dictSet, dictGet, hp, h, hk, Ne.symm h, ih]

/-- dict.update is a shallow merge: lookup in the merged dict takes the
(last) binding from the update argument when its key occurs there, and the
original binding otherwise. -/
theorem dictGet_dictUpdate (m : Ledger) : ∀ (d : Ledger) (k : String),
    dictGet (dictUpdate d m) k =
      match lookupLast m k with
      | some v => some v
      | none => dictGet d k := by
  induction m with
  | nil =>
      intro d k
      rfl
  | cons p m ih =>
      intro d k
      rw [dictUpdate_cons, ih]
      cases h : lookupLast m k with
      | some v => simp [lookupLast, h]
      | none =>
          by_cases hpk : p.1 = k <;>
            simp [lookupLast, h, dictGet_dictSet, hpk]

/-- Observable events of one process invocation: a stage function being
entered, the ledger file being written (json.dump of the whole dict), and a
printed message. -/
inductive Event where
  | stageRun : String → Event
  | ledgerWrite : Ledger → Event
  | printMsg : String → Event

/-- Result of one process invocation: the event trace, whether the process
exited with status zero, and the final content of the durable ledger file
(none when the file does not exist). -/
structure RunResult where
  events : List Event
  exitZero : Bool
  disk : Option Ledger

/-- The stage-function names of a run, in the order their runs appear in the
event trace. -/
def stageTrace (evs : List Event) : List String :=
  evs.filterMap fun e =>
    match e with
    | Event.stageRun n => some n
    | _ => none

/-- Number of ledger-file writes in an event trace. -/
def writeCount (evs : List Event) : Nat :=
  (evs.filter fun e =>
    match e with
    | Event.ledgerWrite _ => true
    | _ => false).length

/-- Checks that after every stage run a ledger write occurs before the next
stage run begins (the per-stage checkpointing discipline). -/
def flushBeforeNext : Bool → List Event → Bool
  | true, Event.stageRun _ :: _ => false
  | false, Event.stageRun _ :: rest => flushBeforeNext true rest
  | _, Event.ledgerWrite _ :: rest => flushBeforeNext false rest
  | s, Event.printMsg _ :: rest => flushBeforeNext s rest
  | _, [] => true

/-- Top-level form of flushBeforeNext: no stage is awaiting a flush at the
start of the trace. -/
def flushAfterEveryStage (evs : List Event) : Bool :=
  flushBeforeNext false evs

/-- Runs the named stage functions in the given order, calling `beh` for
each one: `Except.ok v` is the record the stage function returns, and
`Except.error e` is an exception the stage function raises, which in both
scripts is uncaught at top level and aborts the process at once.  Returns
the event trace (a stage that raises is still entered, so its run event is
recorded) and, when all stages return, their records keyed by stage name in
execution order. -/
def runAllFatal (beh : String → Except String JVal) :
    List String → List Event × Option Ledger
  | [] => ([], some [])
  | n :: rest =>
    match beh n with
    | Except.error _ => ([Event.stageRun n], none)
    | Except.ok v =>
      let r := runAllFatal beh rest
      (Event.stageRun n :: r.1, r.2.map fun l => (n, v) :: l)

/-- The six stage functions called by the top-level code of
src/boto3-iac-script.py (lines 549-588), keyed by the names the final
infrastructure dict uses for their results (lines 576-583). -/
def iacStageNames : List String :=
  ["vpc", "security_groups", "iam", "launch_template", "load_balancer",
   "auto_scaling_group"]

/-- Top-level code of src/boto3-iac-script.py (lines 549-588): runs the six
stage functions in their fixed order; any exception a stage raises is
uncaught and aborts the process with a non-zero status, leaving the ledger
file as it was before the run (`disk0`); when all six return, the combined
infrastructure dict is built and saved to the ledger file once, by
save_infrastructure_details, and the process exits zero. -/
def iacMain (beh : String → Except String JVal) (disk0 : Option Ledger) :
    RunResult :=
  match runAllFatal beh iacStageNames with
  | (evs, none) => ⟨evs, false, disk0⟩
  | (evs, some l) => ⟨evs ++ [Event.ledgerWrite l], true, some l⟩

/-- The five stage functions called by the top-level code of
src/complete-deployment-script.py (lines 522-548), keyed by the names
update_infrastructure_details stores their results under (lines 542-548). -/
def cdsStageNames : List String :=
  ["backend_deployment", "load_balancer_config", "dns", "frontend", "lambda"]

/-- The diagnostic printed by src/complete-deployment-script.py line 26 when
infrastructure_details.json is absent. -/
def cdsDiagnostic : String :=
  "No existing infrastructure details found, please run the VPC setup script first"

/-- Top-level code of src/complete-deployment-script.py: the module-level
load (lines 19-27) opens infrastructure_details.json; on FileNotFoundError
it prints a diagnostic and calls exit(1) before any stage function runs.
Otherwise the five stage functions run in their fixed order (lines 522-539);
an uncaught exception aborts the process non-zero with the ledger file
untouched; when all five return, update_infrastructure_details merges their
records into the loaded dict with dict.update and writes the file once. -/
def cdsMain (fileContent : Option Ledger)
    (beh : String → Except String JVal) : RunResult :=
  match fileContent with
  | none => ⟨[Event.printMsg cdsDiagnostic], false, none⟩
  | some infra =>
    match runAllFatal beh cdsStageNames with
    | (evs, none) => ⟨evs, false, some infra⟩
    | (evs, some newDetails) =>
      let l := dictUpdate infra newDetails
      ⟨evs ++ [Event.ledgerWrite l], true, some l⟩

/-- When every stage function returns normally, runAllFatal produces exactly
one run event per stage, in order, and the records keyed in order. -/
theorem runAllFatal_ok (g : String → JVal) (beh : String → Except String JVal)
    (hbeh : ∀ n, beh n = Except.ok (g n)) : ∀ names : List String,
    runAllFatal beh names =
      (names.map Event.stageRun, some (names.map fun n => (n, g n))) := by
  intro names
  induction names with
  | nil => rfl
  | cons n rest ih => simp [runAllFatal, hbeh n, ih]

/-- The stages runAllFatal enters always form a prefix of the requested
order, and the full list exactly when a result is produced. -/
theorem runAllFatal_trace (beh : String → Except String JVal) :
    ∀ names : List String,
      stageTrace (runAllFatal beh names).1 <+: names ∧
      ((runAllFatal beh names).2.isSome →
        stageTrace (runAllFatal beh names).1 = names) := by
  intro names
  induction names with
  | nil =>
      exact ⟨⟨[], rfl⟩, fun _ => rfl⟩
  | cons n rest ih =>
      cases hb : beh n with
      | error e =>
          refine ⟨⟨rest, ?_⟩, ?_⟩
          · simp [runAllFatal, hb, stageTrace]
          · intro hs
            simp [runAllFatal, hb] at hs
      | ok v =>
          obtain ⟨⟨t, ht⟩, hfull⟩ := ih
          refine ⟨⟨t, ?_⟩, ?_⟩
          · simp [runAllFatal, hb, stageTrace] at ht ⊢
            exact ht
          · intro hs
            simp [runAllFatal, hb, stageTrace] at hs ⊢
            simp [stageTrace] at hfull
            exact hfull hs

/-- runAllFatal never writes the ledger file. -/
theorem runAllFatal_writeCount (beh : String → Except String JVal) :
    ∀ names : List String, writeCount (runAllFatal beh names).1 = 0 := by
  intro names
  induction names with
  | nil => rfl
  | cons n rest ih =>
      cases hb : beh n with
      | error e => simp [runAllFatal, hb, writeCount]
      | ok v =>
          simp [runAllFatal, hb, writeCount] at ih ⊢
          exact ih

/-- configure_dns (src/complete-deployment-script.py lines 90-165): the
whole body runs inside one try/except Exception block.  `tryBody` is the
outcome of the Route 53 call sequence: `Except.ok r` is the record the body
returns (domain_name, hosted_zone_id, nameservers), `Except.error e` is a
raised exception with message `e`.  On an exception the function prints the
error and returns a dict whose only entry is the key "error" mapped to the
message (lines 161-165); it never re-raises. -/
def configure_dns (tryBody : Except String JVal) : JVal :=
  match tryBody with
  | Except.ok r => r
  | Except.error e => JVal.obj [("error", JVal.str e)]

/-- Remote calls issued by create_load_balancer
(src/boto3-iac-script.py lines 286-384). -/
inductive ElbCall where
  | createLoadBalancer : List String → String → ElbCall
  | createTargetGroup : String → String → ElbCall
  | createListener : ElbCall
  | createRule : ElbCall

/-- create_load_balancer (src/boto3-iac-script.py lines 286-384).  Its
parameters are `subnets` and `alb_sg_id`; the two create_target_group calls
(lines 304-337) pass `VpcId=vpc_id`, reading the module-global variable
vpc_id, which no parameter shadows and which only the top-level code assigns
(line 554).  `globalVpcId = none` models the call happening before that
assignment: evaluating `vpc_id` then raises NameError, after
elbv2.create_load_balancer (line 288) has already been called.  The remote
response values (ARNs and the DNS name) are opaque inputs; the returned
record keys are those of lines 379-384. -/
def create_load_balancer (globalVpcId : Option String)
    (subnetsPublic : List String) (albSgId : String)
    (albArn albDns helloTgArn profileTgArn : String) :
    List ElbCall × Except String JVal :=
  match globalVpcId with
  | none =>
      ([ElbCall.createLoadBalancer subnetsPublic albSgId],
       Except.error "NameError: name vpc_id is not defined")
  | some v =>
      ([ElbCall.createLoadBalancer subnetsPublic albSgId,
        ElbCall.createTargetGroup "ProjectOrc-Hello-TG" v,
        ElbCall.createTargetGroup "ProjectOrc-Profile-TG" v,
        ElbCall.createListener,
        ElbCall.createRule],
       Except.ok (JVal.obj
         [("alb_arn", JVal.str albArn),
          ("alb_dns", JVal.str albDns),
          ("hello_tg_arn", JVal.str helloTgArn),
          ("profile_tg_arn", JVal.str profileTgArn)]))

/-- Remote calls issued by the backup-setup stage functions
(src/lambda-backup-script.py lines 13-316 and
src/complete-deployment-script.py lines 289-511). -/
inductive BackupCall where
  | createBucket : BackupCall
  | putBucketLifecycle : BackupCall
  | createRole : String → BackupCall
  | attachRolePolicy : String → BackupCall
  | createFunction : String → BackupCall
  | putRule : String → BackupCall
  | addPermission : String → BackupCall
  | putTargets : String → BackupCall

/-- create_db_backup_lambda (src/lambda-backup-script.py lines 13-316).
`bucketTry` is the outcome of the try block around s3.create_bucket and
s3.put_bucket_lifecycle_configuration (lines 19-46): on an exception with
message `e` the function returns a dict whose only entry is "error" mapped
to `e`, before any further call; the trace then records only the attempted
bucket creation.  On success it creates the IAM role, attaches three
policies, creates the Lambda function and installs the daily and weekly
schedule rules, returning the backup_config record of lines 300-308.
Remote identifiers (`bucketName`, `roleArn`, `fnArn`) are opaque inputs. -/
def create_db_backup_lambda (bucketTry : Except String Unit)
    (bucketName roleArn fnArn : String) : List BackupCall × JVal :=
  match bucketTry with
  | Except.error e =>
      ([BackupCall.createBucket], JVal.obj [("error", JVal.str e)])
  | Except.ok _ =>
      ([BackupCall.createBucket,
        BackupCall.putBucketLifecycle,
        BackupCall.createRole "ProjectOrc-Lambda-Backup-Role",
        BackupCall.attachRolePolicy "arn:aws:iam::aws:policy/AmazonS3FullAccess",
        BackupCall.attachRolePolicy "arn:aws:iam::aws:policy/AmazonRDSFullAccess",
        BackupCall.attachRolePolicy
          "arn:aws:iam::aws:policy/service-role/AWSLambdaBasicExecutionRole",
        BackupCall.createFunction "ProjectOrc-DB-Backup",
        BackupCall.putRule "ProjectOrc-Daily-DB-Backup",
        BackupCall.addPermission "AllowCloudWatchEvents",
        BackupCall.putTargets "ProjectOrc-Daily-DB-Backup",
        BackupCall.putRule "ProjectOrc-Weekly-Full-DB-Backup",
        BackupCall.addPermission "AllowWeeklyCloudWatchEvents",
        BackupCall.putTargets "ProjectOrc-Weekly-Full-DB-Backup"],
       JVal.obj
         [("lambda_role_name", JVal.str "ProjectOrc-Lambda-Backup-Role"),
          ("lambda_role_arn", JVal.str roleArn),
          ("lambda_function_name", JVal.str "ProjectOrc-DB-Backup"),
          ("lambda_function_arn", JVal.str fnArn),
          ("s3_bucket", JVal.str bucketName),
          ("daily_cloudwatch_rule", JVal.str "ProjectOrc-Daily-DB-Backup"),
          ("weekly_cloudwatch_rule",
           JVal.str "ProjectOrc-Weekly-Full-DB-Backup")])

/-- create_lambda_functions (src/complete-deployment-script.py lines
289-511): same early-return structure as create_db_backup_lambda.
`bucketTry` is the outcome of the try block around s3.create_bucket and the
lifecycle configuration (lines 295-322): on an exception with message `e`
the function returns a dict whose only entry is "error" mapped to `e`,
before any further call.  On success it creates the Lambda IAM role,
attaches three policies, creates the Lambda function and installs the
nightly schedule rule, returning the record of lines 504-511. -/
def create_lambda_functions (bucketTry : Except String Unit)
    (bucketName roleArn fnArn : String) : List BackupCall × JVal :=
  match bucketTry with
  | Except.error e =>
      ([BackupCall.createBucket], JVal.obj [("error", JVal.str e)])
  | Except.ok _ =>
      ([BackupCall.createBucket,
        BackupCall.putBucketLifecycle,
        BackupCall.createRole "ProjectOrc-Lambda-Role",
        BackupCall.attachRolePolicy "arn:aws:iam::aws:policy/AmazonS3FullAccess",
        BackupCall.attachRolePolicy "arn:aws:iam::aws:policy/AmazonRDSFullAccess",
        BackupCall.attachRolePolicy
          "arn:aws:iam::aws:policy/service-role/AWSLambdaBasicExecutionRole",
        BackupCall.createFunction "ProjectOrc-DB-Backup",
        BackupCall.putRule "ProjectOrc-Nightly-Backup",
        BackupCall.addPermission "AllowCloudWatchEvents",
        BackupCall.putTargets "ProjectOrc-Nightly-Backup"],
       JVal.obj
         [("lambda_role_name", JVal.str "ProjectOrc-Lambda-Role"),
          ("lambda_role_arn", JVal.str roleArn),
          ("lambda_function_name", JVal.str "ProjectOrc-DB-Backup"),
          ("lambda_function_arn", JVal.str fnArn),
          ("s3_bucket", JVal.str bucketName),
          ("cloudwatch_rule", JVal.str "ProjectOrc-Nightly-Backup")])

/-- File-system operations performed while writing the ledger file. -/
inductive FileOp where
  | truncate : FileOp
  | write : String → FileOp

/-- Effect of one file operation on the file content. -/
def applyFileOp (content : String) : FileOp → String
  | FileOp.truncate => ""
  | FileOp.write s => content ++ s

/-- All file contents observable during a write sequence: the content
before any operation, after each operation, and at the end.  A crash can
leave the file at any one of these states. -/
def diskStates (content0 : String) (ops : List FileOp) : List String :=
  ops.scanl applyFileOp content0

/-- save_infrastructure_details (src/boto3-iac-script.py lines 543-547) and
the write half of update_infrastructure_details
(src/complete-deployment-script.py lines 517-518): open the destination
path infrastructure_details.json directly in mode w, which truncates the
existing file in place, then json.dump the serialization `serialized` into
it.  No temporary file or rename is involved. -/
def save_infrastructure_details (serialized : String) : List FileOp :=
  [FileOp.truncate, FileOp.write serialized]

/-- Terminal outcomes of a readiness waiter. -/
inductive WaitOutcome where
  | ready : WaitOutcome
  | timedOut : WaitOutcome

/-- Modelled from the spec: the readiness-waiter loop (spec section 4.2).
The loop itself lives in the boto3 library, not in this repository; the
repository only configures and invokes it (src/lambda-backup-script.py
lines 127-135 with Delay=30 and MaxAttempts=60, src/boto3-iac-script.py
lines 176-179 with the default configuration).  One probe per attempt:
`check i` is whether the probe on attempt `i` reports the target state.  A
successful probe yields `ready` at once; otherwise the loop sleeps a
constant `interval` and probes again, and when `maxAttempts` probes have
all failed it yields `timedOut`.  Arguments: probes remaining, probes made
so far.  Returns the outcome, the total number of probes made, and the
list of sleeps performed between probes. -/
def waitLoop (check : Nat → Bool) (interval : Nat) :
    Nat → Nat → WaitOutcome × Nat × List Nat
  | 0, probes => (WaitOutcome.timedOut, probes, [])
  | rem + 1, probes =>
    if check probes then (WaitOutcome.ready, probes + 1, [])
    else if rem = 0 then (WaitOutcome.timedOut, probes + 1, [])
    else
      let r := waitLoop check interval rem (probes + 1)
      (r.1, r.2.1, interval :: r.2.2)

/-- Modelled from the spec: wait_until entry point of the readiness waiter
(spec section 4.2), probing from attempt 0 with `maxAttempts` probes
allowed. -/
def wait_until (check : Nat → Bool) (interval maxAttempts : Nat) :
    WaitOutcome × Nat × List Nat :=
  waitLoop check interval maxAttempts 0

theorem stageTrace_append (a b : List Event) :
    stageTrace (a ++ b) = stageTrace a ++ stageTrace b :=
  List.filterMap_append a b _

theorem stageTrace_map_stageRun (names : List String) :
    stageTrace (names.map Event.stageRun) = names := by
  induction names with
  | nil => rfl
  | cons n rest ih =>
      simp only [List.map_cons, stageTrace, List.filterMap_cons] at ih ⊢
      simp [ih]

theorem stageTrace_ledgerWrite (l : Ledger) :
    stageTrace [Event.ledgerWrite l] = [] := rfl

theorem stageTrace_append_write (evs : List Event) (l : Ledger) :
    stageTrace (evs ++ [Event.ledgerWrite l]) = stageTrace evs := by
  simp [stageTrace_append, stageTrace_ledgerWrite]

/-- A stage behavior in which every stage function returns a placeholder
record (every remote call succeeds). -/
def behAllOk : String → Except String JVal :=
  fun _ => Except.ok (JVal.str "r")

/-- A stage behavior in which create_iam_role raises (for example a
duplicate-name error from the remote API) and every other stage returns. -/
def behIamFails : String → Except String JVal :=
  fun n =>
    if n = "iam" then Except.error "EntityAlreadyExists"
    else Except.ok (JVal.str "r")

/-- A stage behavior in which create_launch_template raises and every other
stage returns. -/
def behLtFails : String → Except String JVal :=
  fun n =>
    if n = "launch_template" then Except.error "DuplicateResource"
    else Except.ok (JVal.str "r")

/-- Claim C1 counterexample: a fully successful run of the first script in
which every stage function returns, yet the event trace never writes the
ledger file between two stage runs — the per-stage checkpoint discipline
the claim asserts is violated on this concrete run. -/
theorem c1_counterexample :
    (iacMain behAllOk none).exitZero = true ∧
    flushAfterEveryStage (iacMain behAllOk none).events = false :=
  ⟨rfl, rfl⟩

/-- Claim C1 (amended): the scripts write the ledger file exactly once, at
process end after every stage has completed — in a fully successful run the
single write is the last event, after all stage runs — and a run in which
any stage raises performs no write at all and leaves the file as it was
before the run. -/
theorem c1_flush_only_at_process_end :
    (∀ (g : String → JVal) (d0 : Option Ledger),
      (iacMain (fun n => Except.ok (g n)) d0).events =
        iacStageNames.map Event.stageRun ++
          [Event.ledgerWrite (iacStageNames.map fun n => (n, g n))]) ∧
    (∀ (beh : String → Except String JVal) (d0 : Option Ledger),
      (iacMain beh d0).exitZero = false →
        writeCount (iacMain beh d0).events = 0 ∧
        (iacMain beh d0).disk = d0) ∧
    (∀ (infra : Ledger) (g : String → JVal),
      (cdsMain (some infra) (fun n => Except.ok (g n))).events =
        cdsStageNames.map Event.stageRun ++
          [Event.ledgerWrite
            (dictUpdate infra (cdsStageNames.map fun n => (n, g n)))]) ∧
    (∀ (fc : Option Ledger) (beh : String → Except String JVal),
      (cdsMain fc beh).exitZero = false →
        writeCount (cdsMain fc beh).events = 0) := by
  refine ⟨?_, ?_, ?_, ?_⟩
  · intro g d0
    simp [iacMain, runAllFatal_ok g _ (fun n => rfl) iacStageNames]
  · intro beh d0 h
    cases hr : runAllFatal beh iacStageNames with
    | mk evs o =>
        cases o with
        | none =>
            have hw := runAllFatal_writeCount beh iacStageNames
            rw [hr] at hw
            exact ⟨by simpa [iacMain, hr] using hw, by simp [iacMain, hr]⟩
        | some l =>
            exfalso
            simp [iacMain, hr] at h
  · intro infra g
    simp [cdsMain, runAllFatal_ok g _ (fun n => rfl) cdsStageNames]
  · intro fc beh h
    cases fc with
    | none => rfl
    | some infra =>
        cases hr : runAllFatal beh cdsStageNames with
        | mk evs o =>
            cases o with
            | none =>
                have hw := runAllFatal_writeCount beh cdsStageNames
                rw [hr] at hw
                simpa [cdsMain, hr] using hw
            | some l =>
                exfalso
                simp [cdsMain, hr] at h

theorem c1_witness :
    writeCount (iacMain behIamFails (some [])).events = 0 ∧
    (iacMain behIamFails (some [])).disk = some [] :=
  c1_flush_only_at_process_end.2.1 behIamFails (some []) rfl

/-- Claim C2 counterexample: a run of the first script in which
create_iam_role raises (a fatal stage failure).  The run does stop
immediately — only the first three stage runs appear — but no ledger write
occurs and the durable file is left absent: the partial progress of the
vpc and security_groups stages is NOT preserved on disk, contrary to the
claim. -/
theorem c2_counterexample :
    behIamFails "iam" = Except.error "EntityAlreadyExists" ∧
    (iacMain behIamFails none).exitZero = false ∧
    writeCount (iacMain behIamFails none).events = 0 ∧
    (iacMain behIamFails none).disk = none ∧
    stageTrace (iacMain behIamFails none).events =
      ["vpc", "security_groups", "iam"] :=
  ⟨rfl, rfl, rfl, rfl, rfl⟩

/-- Claim C2 (amended): when a stage fails fatally the pipeline stops
immediately — the stages that ran form a prefix of the fixed order, so no
later stage runs — but the ledger is NOT flushed: no write occurs and the
durable file is left exactly as it was before the run, hence it contains no
output key from any unrun stage (nor from the stages completed in the
interrupted run). -/
theorem c2_fatal_stops_without_flush :
    (∀ (beh : String → Except String JVal) (d0 : Option Ledger),
      (iacMain beh d0).exitZero = false →
        stageTrace (iacMain beh d0).events <+: iacStageNames ∧
        writeCount (iacMain beh d0).events = 0 ∧
        (iacMain beh d0).disk = d0) ∧
    (∀ (infra : Ledger) (beh : String → Except String JVal),
      (cdsMain (some infra) beh).exitZero = false →
        stageTrace (cdsMain (some infra) beh).events <+: cdsStageNames ∧
        writeCount (cdsMain (some infra) beh).events = 0 ∧
        (cdsMain (some infra) beh).disk = some infra) := by
  constructor
  · intro beh d0 h
    have ht := runAllFatal_trace beh iacStageNames
    have hw := runAllFatal_writeCount beh iacStageNames
    cases hr : runAllFatal beh iacStageNames with
    | mk evs o =>
        rw [hr] at ht hw
        cases o with
        | none =>
            exact ⟨by simpa [iacMain, hr] using ht.1,
                   by simpa [iacMain, hr] using hw,
                   by simp [iacMain, hr]⟩
        | some l =>
            exfalso
            simp [iacMain, hr] at h
  · intro infra beh h
    have ht := runAllFatal_trace beh cdsStageNames
    have hw := runAllFatal_writeCount beh cdsStageNames
    cases hr : runAllFatal beh cdsStageNames with
    | mk evs o =>
        rw [hr] at ht hw
        cases o with
        | none =>
            exact ⟨by simpa [cdsMain, hr] using ht.1,
                   by simpa [cdsMain, hr] using hw,
                   by simp [cdsMain, hr]⟩
        | some l =>
            exfalso
            simp [cdsMain, hr] at h

theorem c2_witness :
    stageTrace (iacMain behLtFails none).events <+: iacStageNames ∧
    writeCount (iacMain behLtFails none).events = 0 ∧
    (iacMain behLtFails none).disk = none :=
  c2_fatal_stops_without_flush.1 behLtFails none rfl

/-- Claim C3 (confirmed): on the resumed-run script, when the durable
ledger file is absent (FileNotFoundError on open) the process prints the
diagnostic and exits non-zero before any stage runs; when the file is
present and every stage function returns, the process exits zero and the
event trace records each stage run in order. -/
theorem c3_missing_ledger_exits_before_stages :
    (∀ beh : String → Except String JVal,
      cdsMain none beh =
        ⟨[Event.printMsg cdsDiagnostic], false, none⟩) ∧
    (∀ (infra : Ledger) (g : String → JVal),
      (cdsMain (some infra) (fun n => Except.ok (g n))).exitZero = true ∧
      stageTrace (cdsMain (some infra)
        (fun n => Except.ok (g n))).events = cdsStageNames) := by
  constructor
  · intro beh
    rfl
  · intro infra g
    have hr := runAllFatal_ok g _ (fun n => rfl) cdsStageNames
    constructor
    · simp [cdsMain, hr]
    · simp [cdsMain, hr, stageTrace_append, stageTrace_map_stageRun,
        stageTrace_ledgerWrite]

/-- Claim C4 (confirmed): when the try body of configure_dns raises with
message `e` (a best-effort stage failure), the stage function returns the
record with the single key "error", the pipeline does not abort — the next
stage, deploy_frontend, still runs — and when the remaining stages return,
the flushed ledger records that error object under the key "dns". -/
theorem c4_best_effort_error_recorded_next_stage_runs :
    ∀ (infra : Ledger) (g : String → JVal) (e : String),
      Event.stageRun "frontend" ∈
        (cdsMain (some infra) (fun n =>
          if n = "dns" then Except.ok (configure_dns (Except.error e))
          else Except.ok (g n))).events ∧
      (cdsMain (some infra) (fun n =>
          if n = "dns" then Except.ok (configure_dns (Except.error e))
          else Except.ok (g n))).exitZero = true ∧
      ∃ l : Ledger,
        (cdsMain (some infra) (fun n =>
          if n = "dns" then Except.ok (configure_dns (Except.error e))
          else Except.ok (g n))).disk = some l ∧
        dictGet l "dns" = some (JVal.obj [("error", JVal.str e)]) := by
  intro infra g e
  have hbeh : ∀ n, (fun n =>
      if n = "dns" then Except.ok (configure_dns (Except.error e))
      else Except.ok (g n)) n =
      (Except.ok (if n = "dns" then configure_dns (Except.error e)
        else g n) : Except String JVal) := by
    intro n
    by_cases hn : n = "dns" <;> simp [hn]
  have hr := runAllFatal_ok
    (fun n => if n = "dns" then configure_dns (Except.error e) else g n)
    _ hbeh cdsStageNames
  refine ⟨?_, ?_, ?_⟩
  · simp only [cdsMain, hr]
    refine List.mem_append_left _ ?_
    exact List.mem_map.mpr ⟨"frontend", by simp [cdsStageNames], rfl⟩
  · simp [cdsMain, hr]
  · refine ⟨dictUpdate infra (cdsStageNames.map fun n =>
      (n, if n = "dns" then configure_dns (Except.error e) else g n)),
      by simp [cdsMain, hr], ?_⟩
    rw [dictGet_dictUpdate]
    have hl : lookupLast (cdsStageNames.map fun n =>
        (n, if n = "dns" then configure_dns (Except.error e) else g n))
        "dns" = some (configure_dns (Except.error e)) := rfl
    rw [hl]
    rfl

/-- Claim C6 (confirmed): each script runs its stage functions in the fixed
caller-supplied total order — the stages entered always form a prefix of
that order, and a run in which every stage returns enters exactly the full
order — and each stage name occurs once in the order, for every loaded
ledger content, with no skip-on-existing-output check. -/
theorem c6_fixed_order_every_stage_once :
    (∀ (g : String → JVal) (d0 : Option Ledger),
      stageTrace (iacMain (fun n => Except.ok (g n)) d0).events =
        iacStageNames) ∧
    (∀ (infra : Ledger) (g : String → JVal),
      stageTrace (cdsMain (some infra)
        (fun n => Except.ok (g n))).events = cdsStageNames) ∧
    (∀ (beh : String → Except String JVal) (d0 : Option Ledger),
      stageTrace (iacMain beh d0).events <+: iacStageNames) ∧
    (∀ (fc : Option Ledger) (beh : String → Except String JVal),
      stageTrace (cdsMain fc beh).events <+: cdsStageNames) ∧
    iacStageNames.Nodup ∧ cdsStageNames.Nodup := by
  refine ⟨?_, ?_, ?_, ?_, by decide, by decide⟩
  · intro g d0
    simp [iacMain, runAllFatal_ok g _ (fun n => rfl) iacStageNames,
      stageTrace_append, stageTrace_map_stageRun, stageTrace_ledgerWrite]
  · intro infra g
    simp [cdsMain, runAllFatal_ok g _ (fun n => rfl) cdsStageNames,
      stageTrace_append, stageTrace_map_stageRun, stageTrace_ledgerWrite]
  · intro beh d0
    have ht := runAllFatal_trace beh iacStageNames
    cases hr : runAllFatal beh iacStageNames with
    | mk evs o =>
        rw [hr] at ht
        cases o with
        | none => simpa [iacMain, hr] using ht.1
        | some l => simpa [iacMain, hr, stageTrace_append_write] using ht.1
  · intro fc beh
    cases fc with
    | none => exact ⟨cdsStageNames, rfl⟩
    | some infra =>
        have ht := runAllFatal_trace beh cdsStageNames
        cases hr : runAllFatal beh cdsStageNames with
        | mk evs o =>
            rw [hr] at ht
            cases o with
            | none => simpa [cdsMain, hr] using ht.1
            | some l =>
                simpa [cdsMain, hr, stageTrace_append_write] using ht.1

/-- Claim C7 (confirmed): the ledger merge is shallow overwrite at the
top-level key with last-writer-wins semantics — item assignment makes the
key map to the new record wholesale (whatever nested fields the old record
had) and leaves every other top-level key unchanged, and dict.update gives
each key of the update argument its (last) record from the argument and
leaves every other key of the original unchanged. -/
theorem c7_shallow_overwrite_last_writer_wins :
    (∀ (d : Ledger) (k : String) (v : JVal),
      dictGet (dictSet d k v) k = some v) ∧
    (∀ (d : Ledger) (k : String) (v : JVal) (k' : String), k' ≠ k →
      dictGet (dictSet d k v) k' = dictGet d k') ∧
    (∀ (d m : Ledger) (k : String),
      dictGet (dictUpdate d m) k =
        match lookupLast m k with
        | some v => some v
        | none => dictGet d k) := by
  refine ⟨?_, ?_, ?_⟩
  · intro d k v
    simp [dictGet_dictSet]
  · intro d k v k' hk
    simp [dictGet_dictSet, Ne.symm hk]
  · intro d m k
    exact dictGet_dictUpdate m d k

theorem c7_witness :
    dictGet (dictSet
      [("vpc", JVal.obj [("vpc_id", JVal.str "vpc-1"),
                         ("igw_id", JVal.str "igw-1")]),
       ("iam", JVal.obj [("role_name", JVal.str "ProjectOrc-EC2-ECR-Role")])]
      "vpc" (JVal.obj [("vpc_id", JVal.str "vpc-2")])) "vpc" =
      some (JVal.obj [("vpc_id", JVal.str "vpc-2")]) ∧
    dictGet (dictSet
      [("vpc", JVal.obj [("vpc_id", JVal.str "vpc-1"),
                         ("igw_id", JVal.str "igw-1")]),
       ("iam", JVal.obj [("role_name", JVal.str "ProjectOrc-EC2-ECR-Role")])]
      "vpc" (JVal.obj [("vpc_id", JVal.str "vpc-2")])) "iam" =
      dictGet
      [("vpc", JVal.obj [("vpc_id", JVal.str "vpc-1"),
                         ("igw_id", JVal.str "igw-1")]),
       ("iam", JVal.obj [("role_name", JVal.str "ProjectOrc-EC2-ECR-Role")])]
      "iam" :=
  ⟨c7_shallow_overwrite_last_writer_wins.1 _ "vpc" _,
   c7_shallow_overwrite_last_writer_wins.2.1 _ "vpc" _ "iam" (by decide)⟩

/-- Claim C5 counterexample: flushing a new checkpoint "B" over a previous
good checkpoint "A" passes through an observable intermediate file state
(the empty file left by opening the destination in truncating write mode)
that is neither the previous checkpoint nor the new one — a crash at that
point corrupts the previous good checkpoint, so the flush is not atomic
from the caller's perspective. -/
theorem c5_counterexample :
    ¬ ∀ d ∈ diskStates "A" (save_infrastructure_details "B"),
        d = "A" ∨ d = "B" := by
  decide

/-- Claim C5 (amended): the flush serializes the full ledger but writes it
by truncating infrastructure_details.json in place and rewriting it — no
write-to-temp-then-rename — so whenever the previous checkpoint and the new
serialization are both non-empty, some crash point during the flush leaves
the file holding neither of them. -/
theorem c5_flush_not_atomic :
    ∀ old s : String, old ≠ "" → s ≠ "" →
      ∃ d ∈ diskStates old (save_infrastructure_details s),
        d ≠ old ∧ d ≠ s := by
  intro old s ho hs
  refine ⟨"", ?_, fun h => ho h.symm, fun h => hs h.symm⟩
  simp [diskStates, save_infrastructure_details, applyFileOp, List.scanl]

theorem c5_witness :
    ∃ d ∈ diskStates "prev-checkpoint"
        (save_infrastructure_details "new-checkpoint"),
      d ≠ "prev-checkpoint" ∧ d ≠ "new-checkpoint" :=
  c5_flush_not_atomic "prev-checkpoint" "new-checkpoint"
    (by decide) (by decide)

theorem waitLoop_never_ready (check : Nat → Bool) (interval : Nat)
    (hc : ∀ i, check i = false) :
    ∀ rem probes : Nat, 0 < rem →
      waitLoop check interval rem probes =
        (WaitOutcome.timedOut, probes + rem,
         List.replicate (rem - 1) interval) := by
  intro rem
  induction rem with
  | zero =>
      intro probes h
      exact absurd h (by omega)
  | succ r ih =>
      intro probes _
      cases r with
      | zero => simp [waitLoop, hc probes]
      | succ r' =>
          have hrec := ih (probes + 1) (Nat.succ_pos r')
          rw [waitLoop, hc probes]
          simp only [Bool.false_eq_true, if_false, hrec]
          simp [Prod.ext_iff, List.replicate_succ]
          omega

/-- Claim C8 (confirmed, spec-modelled): a readiness waiter whose probe
never reports the target state returns timedOut after exactly the
configured attempt count — it makes exactly maxAttempts probes with a
constant-interval sleep between consecutive probes and then stops, never
blocking indefinitely (the loop is a total function of the attempt
budget). -/
theorem c8_waiter_times_out_after_max_attempts :
    ∀ (check : Nat → Bool) (interval maxAttempts : Nat),
      (∀ i, check i = false) → 0 < maxAttempts →
      wait_until check interval maxAttempts =
        (WaitOutcome.timedOut, maxAttempts,
         List.replicate (maxAttempts - 1) interval) := by
  intro check interval maxAttempts hc hpos
  have h := waitLoop_never_ready check interval hc maxAttempts 0 hpos
  simpa [wait_until] using h

theorem c8_witness :
    wait_until (fun _ => false) 30 60 =
      (WaitOutcome.timedOut, 60, List.replicate 59 30) :=
  c8_waiter_times_out_after_max_attempts (fun _ => false) 30 60
    (fun _ => rfl) (by decide)

/-- Claim C9 (confirmed): create_load_balancer reads the module-global
vpc_id — the two target-group calls carry the global value, whatever the
parameters are — so a call made before the top-level code assigns the
global raises NameError after the load balancer itself has already been
created (the trace holds exactly the create_load_balancer call), and once
the global is assigned the NameError branch is unreachable (the result is
always a returned record). -/
theorem c9_create_load_balancer_reads_global_vpc_id :
    ∀ (subnetsPublic : List String)
      (albSgId albArn albDns helloTgArn profileTgArn : String),
      create_load_balancer none subnetsPublic albSgId
          albArn albDns helloTgArn profileTgArn =
        ([ElbCall.createLoadBalancer subnetsPublic albSgId],
         Except.error "NameError: name vpc_id is not defined") ∧
      ∀ v : String,
        (create_load_balancer (some v) subnetsPublic albSgId
            albArn albDns helloTgArn profileTgArn).1 =
          [ElbCall.createLoadBalancer subnetsPublic albSgId,
           ElbCall.createTargetGroup "ProjectOrc-Hello-TG" v,
           ElbCall.createTargetGroup "ProjectOrc-Profile-TG" v,
           ElbCall.createListener,
           ElbCall.createRule] ∧
        ∃ r, (create_load_balancer (some v) subnetsPublic albSgId
            albArn albDns helloTgArn profileTgArn).2 = Except.ok r := by
  intro subnetsPublic albSgId albArn albDns helloTgArn profileTgArn
  exact ⟨rfl, fun v => ⟨rfl, ⟨_, rfl⟩⟩⟩

/-- Claim C10 (confirmed): when creating the S3 backup bucket fails with
message `e`, both backup-setup stage functions return a record whose only
entry is the key "error", and their call traces contain no IAM-role
creation, no Lambda-function creation and no schedule-rule creation — the
only recorded call is the attempted bucket creation. -/
theorem c10_bucket_failure_stops_backup_setup :
    ∀ e bucketName roleArn fnArn : String,
      create_db_backup_lambda (Except.error e) bucketName roleArn fnArn =
        ([BackupCall.createBucket], JVal.obj [("error", JVal.str e)]) ∧
      create_lambda_functions (Except.error e) bucketName roleArn fnArn =
        ([BackupCall.createBucket], JVal.obj [("error", JVal.str e)]) ∧
      (∀ n, BackupCall.createRole n ∉
        (create_db_backup_lambda (Except.error e)
          bucketName roleArn fnArn).1) ∧
      (∀ n, BackupCall.createFunction n ∉
        (create_db_backup_lambda (Except.error e)
          bucketName roleArn fnArn).1) ∧
      (∀ n, BackupCall.putRule n ∉
        (create_db_backup_lambda (Except.error e)
          bucketName roleArn fnArn).1) ∧
      (∀ n, BackupCall.createRole n ∉
        (create_lambda_functions (Except.error e)
          bucketName roleArn fnArn).1) ∧
      (∀ n, BackupCall.createFunction n ∉
        (create_lambda_functions (Except.error e)
          bucketName roleArn fnArn).1) ∧
      (∀ n, BackupCall.putRule n ∉
        (create_lambda_functions (Except.error e)
          bucketName roleArn fnArn).1) := by
  intro e bucketName roleArn fnArn
  refine ⟨rfl, rfl, ?_, ?_, ?_, ?_, ?_, ?_⟩ <;>
    intro n <;>
    simp [create_db_backup_lambda, create_lambda_functions]

end ProjectOrc
